import Mathlib

/-!
Verification of the DatabaseDesignApp component (src/App.tsx).

The file gives a shallow embedding of the two pieces of logic in the
component: the workflow controller (login, design generation, logout,
shared error state) and the diagram transformer
(generateMermaidERD), and proves properties about them.

Modelling conventions:
- React state hooks become fields of an explicit record AppState; each
  setter call becomes a record update.
- Each async handler is split into its synchronous phases: the part run
  on invocation (before the awaited network call), the continuation run
  on a fulfilled response, and the catch branch run on a rejected one.
  A full uninterrupted invocation is the composition of the start phase
  with one of the continuations.
- The outgoing generate-design request body is reified as a record; a
  JavaScript property set to undefined is dropped by JSON serialization,
  so optional properties are modelled as Option values where none means
  the property is absent from the serialized body.
- The success body of the generate-design call is a GenerateResponse:
  stringified is the value of JSON.stringify on the body, and designData
  is some parsed record exactly when the body has the
  designRecommendations.tables shape that generateMermaidERD reads, and
  none when that access faults (the thrown error is caught by the
  handler's catch branch).
-/

/-- A column record of a design recommendation, as read by
generateMermaidERD: name, type and nullable. -/
structure Column where
  name : String
  type : String
  nullable : Bool
  deriving DecidableEq

/-- A relationship record, as read by generateMermaidERD: only
targetTable is consulted. -/
structure Relationship where
  targetTable : String
  deriving DecidableEq

/-- A table record of a design recommendation. The relationships field is
optional: none models a missing (undefined) property, which the source
skips with a truthiness test; some [] models a present empty array, which
is truthy and iterates zero times. -/
structure Table where
  name : String
  columns : List Column
  relationships : Option (List Relationship)
  deriving DecidableEq

/-- The designRecommendations object of the response body. -/
structure DesignRecommendations where
  tables : List Table
  deriving DecidableEq

/-- The response body consumed by generateMermaidERD via
designData.designRecommendations.tables. -/
structure DesignData where
  designRecommendations : DesignRecommendations
  deriving DecidableEq

/-- Embedding of generateMermaidERD (src/App.tsx lines 104-130): a string
accumulator seeded with the header line, one pass over the tables
appending an entity block per table (one line per column, with the
nullable marker that the source computes as the empty string in both
branches of its conditional), then a second pass over the tables
appending one relationship line per relationship entry of each table
whose relationships property is present. -/
def generateMermaidERD (designData : DesignData) : String :=
  let mermaidCode := "erDiagram\n"
  let mermaidCode := designData.designRecommendations.tables.foldl
    (fun mermaidCode table =>
      let mermaidCode := mermaidCode ++ "    " ++ table.name ++ " \x7b\n"
      let mermaidCode := table.columns.foldl
        (fun mermaidCode column =>
          let nullable := if column.nullable then "" else ""
          mermaidCode ++ "        " ++ column.type ++ " " ++ column.name
            ++ nullable ++ "\n")
        mermaidCode
      mermaidCode ++ "    \x7d\n")
    mermaidCode
  let mermaidCode := designData.designRecommendations.tables.foldl
    (fun mermaidCode table =>
      match table.relationships with
      | some relationships =>
          relationships.foldl
            (fun mermaidCode relationship =>
              mermaidCode ++ "    " ++ relationship.targetTable ++ " \x7do--|| "
                ++ table.name ++ " : relates\n")
            mermaidCode
      | none => mermaidCode)
    mermaidCode
  mermaidCode

/-- Concatenation of the strings produced by f over a list, in order. -/
def concatMap (f : α → String) (l : List α) : String :=
  (l.map f).foldr (fun a b => a ++ b) ""

/-- The line emitted for one column inside an entity block. -/
def columnLine (column : Column) : String :=
  "        " ++ column.type ++ " " ++ column.name ++ "\n"

/-- The entity block emitted for one table: opening line, the column
lines in order, closing line. -/
def entityBlock (table : Table) : String :=
  "    " ++ table.name ++ " \x7b\n" ++ concatMap columnLine table.columns
    ++ "    \x7d\n"

/-- The line emitted for one relationship of the table named tableName. -/
def relationshipLine (tableName : String) (relationship : Relationship) : String :=
  "    " ++ relationship.targetTable ++ " \x7do--|| " ++ tableName ++ " : relates\n"

/-- All relationship lines contributed by one table, in entry order; a
table with an absent or empty relationships sequence contributes the
empty string. -/
def relationshipLines (table : Table) : String :=
  concatMap (relationshipLine table.name) (table.relationships.getD [])

theorem concatMap_nil (f : α → String) : concatMap f [] = "" := rfl

theorem concatMap_cons (f : α → String) (x : α) (xs : List α) :
    concatMap f (x :: xs) = f x ++ concatMap f xs := rfl

/-- A left fold that appends f of each element to the accumulator equals
the initial accumulator followed by the concatenation of the f images. -/
theorem foldl_append_concatMap (f : α → String) (g : String → α → String)
    (hg : ∀ a x, g a x = a ++ f x) (l : List α) :
    ∀ init : String, l.foldl g init = init ++ concatMap f l := by
  induction l with
  | nil => intro init; simp [concatMap]
  | cons x xs ih =>
      intro init
      rw [List.foldl_cons, ih, hg, concatMap_cons, String.append_assoc]

/-- One step of the first pass over the tables appends exactly the entity
block of the table. -/
theorem entityStep_eq (a : String) (t : Table) :
    (t.columns.foldl
      (fun mermaidCode column =>
        mermaidCode ++ "        " ++ column.type ++ " " ++ column.name
          ++ (if column.nullable then "" else "") ++ "\n")
      (a ++ "    " ++ t.name ++ " \x7b\n")) ++ "    \x7d\n"
    = a ++ entityBlock t := by
  rw [foldl_append_concatMap columnLine _
    (by intro acc c; simp [columnLine, String.append_assoc])]
  simp [entityBlock, String.append_assoc]

/-- One step of the second pass over the tables appends exactly the
relationship lines of the table. -/
theorem relationshipStep_eq (a : String) (t : Table) :
    (match t.relationships with
     | some relationships =>
         relationships.foldl
           (fun mermaidCode relationship =>
             mermaidCode ++ "    " ++ relationship.targetTable ++ " \x7do--|| "
               ++ t.name ++ " : relates\n")
           a
     | none => a)
    = a ++ relationshipLines t := by
  cases h : t.relationships with
  | none => simp [relationshipLines, h, concatMap]
  | some relationships =>
      show relationships.foldl
          (fun mermaidCode relationship =>
            mermaidCode ++ "    " ++ relationship.targetTable ++ " \x7do--|| "
              ++ t.name ++ " : relates\n")
          a
        = a ++ relationshipLines t
      rw [foldl_append_concatMap (relationshipLine t.name) _
        (by intro acc r; simp [relationshipLine, String.append_assoc])]
      simp [relationshipLines, h]

/-- The whole first pass produces the concatenation of the entity blocks
after the initial accumulator. -/
theorem tableFold_eq (ts : List Table) (init : String) :
    ts.foldl
      (fun mermaidCode table =>
        (table.columns.foldl
          (fun mermaidCode column =>
            mermaidCode ++ "        " ++ column.type ++ " " ++ column.name
              ++ (if column.nullable then "" else "") ++ "\n")
          (mermaidCode ++ "    " ++ table.name ++ " \x7b\n")) ++ "    \x7d\n")
      init
    = init ++ concatMap entityBlock ts :=
  foldl_append_concatMap entityBlock _ entityStep_eq ts init

/-- The whole second pass produces the concatenation of the relationship
lines after the initial accumulator. -/
theorem relationshipFold_eq (ts : List Table) (init : String) :
    ts.foldl
      (fun mermaidCode table =>
        match table.relationships with
        | some relationships =>
            relationships.foldl
              (fun mermaidCode relationship =>
                mermaidCode ++ "    " ++ relationship.targetTable ++ " \x7do--|| "
                  ++ table.name ++ " : relates\n")
              mermaidCode
        | none => mermaidCode)
      init
    = init ++ concatMap relationshipLines ts :=
  foldl_append_concatMap relationshipLines _ relationshipStep_eq ts init

/-- Structure of the transformer output: the header line, then all entity
blocks in table order, then all relationship lines in table order. -/
theorem generateMermaidERD_eq (d : DesignData) :
    generateMermaidERD d = "erDiagram\n"
      ++ concatMap entityBlock d.designRecommendations.tables
      ++ concatMap relationshipLines d.designRecommendations.tables := by
  show d.designRecommendations.tables.foldl
      (fun mermaidCode table =>
        match table.relationships with
        | some relationships =>
            relationships.foldl
              (fun mermaidCode relationship =>
                mermaidCode ++ "    " ++ relationship.targetTable ++ " \x7do--|| "
                  ++ table.name ++ " : relates\n")
              mermaidCode
        | none => mermaidCode)
      (d.designRecommendations.tables.foldl
        (fun mermaidCode table =>
          (table.columns.foldl
            (fun mermaidCode column =>
              mermaidCode ++ "        " ++ column.type ++ " " ++ column.name
                ++ (if column.nullable then "" else "") ++ "\n")
            (mermaidCode ++ "    " ++ table.name ++ " \x7b\n")) ++ "    \x7d\n")
        "erDiagram\n")
    = "erDiagram\n"
      ++ concatMap entityBlock d.designRecommendations.tables
      ++ concatMap relationshipLines d.designRecommendations.tables
  rw [tableFold_eq, relationshipFold_eq]

/-- The two views of the component: the login form when isLoggedIn is
false, the design interface otherwise (src/App.tsx line 295). -/
inductive View where
  | login
  | design
  deriving DecidableEq

/-- The state of the component: one field per React state hook plus one
field per input ref (src/App.tsx lines 16-32). -/
structure AppState where
  isLoggedIn : Bool
  token : String
  error : Option String
  isLoggingIn : Bool
  isGeneratingDesign : Bool
  username : String
  password : String
  sourceType : String
  connectionString : String
  designResult : Option String
  databaseSchema : Option String
  deriving DecidableEq

/-- The initial state: every useState initializer and empty input refs. -/
def initialState : AppState :=
  { isLoggedIn := false
    token := ""
    error := none
    isLoggingIn := false
    isGeneratingDesign := false
    username := ""
    password := ""
    sourceType := ""
    connectionString := ""
    designResult := none
    databaseSchema := none }

/-- The view rendered for a state (src/App.tsx line 295). -/
def currentView (s : AppState) : View :=
  if s.isLoggedIn then View.design else View.login

/-- The message set by the catch branch of handleLogin. -/
def loginFailedMessage : String := "Login failed. Please check your credentials."

/-- The message set by the catch branch of handleGenerateDesign, and by
the same branch when generateMermaidERD throws on a malformed body. -/
def generateFailedMessage : String := "Failed to generate database design."

/-- Phase of handleLogin run synchronously on invocation, before the
awaited network call (src/App.tsx lines 35-42): clear the error, set the
login spinner. -/
def handleLoginStart (s : AppState) : AppState :=
  { s with error := none, isLoggingIn := true }

/-- Continuation of handleLogin on a fulfilled response carrying token
tok (src/App.tsx lines 50-52 and the finally block): store the token,
set isLoggedIn, clear the spinner. -/
def handleLoginSuccess (s : AppState) (tok : String) : AppState :=
  { s with token := tok, isLoggedIn := true, isLoggingIn := false }

/-- Catch branch of handleLogin (src/App.tsx lines 53-58): set the error
message, keep isLoggedIn false, clear the spinner. -/
def handleLoginCatch (s : AppState) : AppState :=
  { s with error := some loginFailedMessage, isLoggedIn := false, isLoggingIn := false }

/-- A full uninterrupted invocation of handleLogin: outcome is some tok
for a fulfilled response carrying tok, none for a rejected one. -/
def handleLogin (s : AppState) (outcome : Option String) : AppState :=
  match outcome with
  | some tok => handleLoginSuccess (handleLoginStart s) tok
  | none => handleLoginCatch (handleLoginStart s)

/-- The sourceConfig object of the generate-design request body. A field
that is none is set to undefined in the source and therefore absent from
the serialized JSON body. -/
structure SourceConfig where
  path : Option String
  url : Option String
  deriving DecidableEq

/-- The generate-design request as issued: the JSON body fields and the
Authorization header value. -/
structure GenerateRequest where
  sourceType : String
  connectionString : String
  sourceConfig : SourceConfig
  authorization : String
  deriving DecidableEq

/-- The request body and header built by handleGenerateDesign
(src/App.tsx lines 71-86): path is the connection string exactly for the
csv source type, url exactly for the api source type, and the
Authorization header is the string Bearer followed by a space and the
stored token. -/
def buildGenerateRequest (sourceType connectionString token : String) : GenerateRequest :=
  { sourceType := sourceType
    connectionString := connectionString
    sourceConfig :=
      { path := if sourceType = "csv" then some connectionString else none
        url := if sourceType = "api" then some connectionString else none }
    authorization := "Bearer " ++ token }

/-- Phase of handleGenerateDesign run synchronously on invocation
(src/App.tsx lines 62-86): read the inputs, clear the error, set the
spinner, and issue the network request. The request component of the
result is the network call made by this phase; the source performs no
session or token check before issuing it. -/
def handleGenerateDesignStart (s : AppState) : AppState × Option GenerateRequest :=
  ({ s with error := none, isGeneratingDesign := true },
   some (buildGenerateRequest s.sourceType s.connectionString s.token))

/-- A fulfilled generate-design response body: stringified is the value
of JSON.stringify on the body, designData is its parsed form when the
body has the shape generateMermaidERD reads, none when that access
throws. -/
structure GenerateResponse where
  stringified : String
  designData : Option DesignData
  deriving DecidableEq

/-- Continuation of handleGenerateDesign on a fulfilled response
(src/App.tsx lines 88-100): setDesignResult runs first with the
stringified body; then generateMermaidERD either succeeds and its output
is stored in databaseSchema, or throws on a malformed body and the catch
branch sets the error message, after setDesignResult has already run.
The finally block clears the spinner on both paths. -/
def handleGenerateDesignSuccess (s : AppState) (response : GenerateResponse) : AppState :=
  let s := { s with designResult := some response.stringified }
  match response.designData with
  | some designData =>
      { s with databaseSchema := some (generateMermaidERD designData),
               isGeneratingDesign := false }
  | none =>
      { s with error := some generateFailedMessage, isGeneratingDesign := false }

/-- Catch branch of handleGenerateDesign on a rejected network call
(src/App.tsx lines 95-100): set the error message, clear the spinner,
touch nothing else. -/
def handleGenerateDesignCatch (s : AppState) : AppState :=
  { s with error := some generateFailedMessage, isGeneratingDesign := false }

/-- Embedding of handleLogout (src/App.tsx lines 133-144): clear the
login flag, the token, the design result, the diagram description and
the four input refs. The source makes no network call here and does not
touch error, isLoggingIn or isGeneratingDesign. -/
def handleLogout (s : AppState) : AppState :=
  { s with isLoggedIn := false
           token := ""
           designResult := none
           databaseSchema := none
           username := ""
           password := ""
           sourceType := ""
           connectionString := "" }

/-- C1 counterexample: in the initial, unauthenticated state the
generate-design handler is not rejected before the network call: it
issues the request, and its Authorization header is the bare Bearer
credential with the empty token. -/
theorem c1_counterexample :
    initialState.isLoggedIn = false
    ∧ (handleGenerateDesignStart initialState).2 = some (buildGenerateRequest "" "" "")
    ∧ (buildGenerateRequest "" "" "").authorization = "Bearer " :=
  ⟨rfl, rfl, rfl⟩

/-- C1 (amended): handleGenerateDesign performs no session check: from
every state, authenticated or not, the start phase issues the network
request built from the current inputs, with Authorization header equal
to the string Bearer, a space, and the stored token (empty token
included). -/
theorem c1_no_session_guard (s : AppState) :
    (handleGenerateDesignStart s).2
      = some (buildGenerateRequest s.sourceType s.connectionString s.token)
    ∧ (buildGenerateRequest s.sourceType s.connectionString s.token).authorization
      = "Bearer " ++ s.token :=
  ⟨rfl, rfl⟩

/-- C2 counterexample: handleLogout does not clear the error message: a
failure message produced before logout is still present afterwards. -/
theorem c2_counterexample :
    (handleLogout { initialState with error := some generateFailedMessage }).error
      = some generateFailedMessage
    ∧ (handleLogout { initialState with error := some generateFailedMessage }).error
      ≠ none :=
  ⟨rfl, by simp [handleLogout]⟩

/-- C2 (amended): for every prior state, handleLogout resets the session
flag, the token, the design result, the diagram description and all four
input fields to their initial absent values, makes no network call (it
is a pure state update in this model), and is idempotent; but it leaves
the error message and the two in-flight flags exactly as they were. -/
theorem c2_logout_resets (s : AppState) :
    (handleLogout s).isLoggedIn = false
    ∧ (handleLogout s).token = ""
    ∧ (handleLogout s).designResult = none
    ∧ (handleLogout s).databaseSchema = none
    ∧ (handleLogout s).username = ""
    ∧ (handleLogout s).password = ""
    ∧ (handleLogout s).sourceType = ""
    ∧ (handleLogout s).connectionString = ""
    ∧ (handleLogout s).error = s.error
    ∧ (handleLogout s).isLoggingIn = s.isLoggingIn
    ∧ (handleLogout s).isGeneratingDesign = s.isGeneratingDesign
    ∧ handleLogout (handleLogout s) = handleLogout s :=
  ⟨rfl, rfl, rfl, rfl, rfl, rfl, rfl, rfl, rfl, rfl, rfl, rfl⟩

/-- C3 counterexample: when the network call fulfills but the body is
malformed (the transformer faults), the previously stored design result
is not left unchanged: setDesignResult has already overwritten it with
the serialization of the new response before the fault. -/
theorem c3_counterexample :
    (handleGenerateDesignSuccess
        { initialState with designResult := some "old", databaseSchema := some "oldDiagram" }
        { stringified := "new", designData := none }).designResult = some "new"
    ∧ (some "new" : Option String) ≠ some "old" :=
  ⟨rfl, by simp⟩

/-- C3 (amended): when the network call is rejected, both the stored
design result and the diagram description are left unchanged and the
failure is surfaced as the generation error message; when the call
fulfills with a malformed body and the transformer faults, the diagram
description is left unchanged and the same error message is surfaced,
but the stored design result has already been overwritten with the
serialization of the new response; in both cases the handler returns a
state rather than terminating. -/
theorem c3_failure_handling (s : AppState) (response : GenerateResponse) :
    (handleGenerateDesignCatch s).designResult = s.designResult
    ∧ (handleGenerateDesignCatch s).databaseSchema = s.databaseSchema
    ∧ (handleGenerateDesignCatch s).error = some generateFailedMessage
    ∧ (response.designData = none →
        (handleGenerateDesignSuccess s response).databaseSchema = s.databaseSchema
        ∧ (handleGenerateDesignSuccess s response).designResult = some response.stringified
        ∧ (handleGenerateDesignSuccess s response).error = some generateFailedMessage) := by
  refine ⟨rfl, rfl, rfl, ?_⟩
  intro h
  refine ⟨?_, ?_, ?_⟩ <;> simp [handleGenerateDesignSuccess, h]

/-- C3 witness: the amended theorem applied at a concrete malformed
response over the initial state. -/
theorem c3_witness :
    (handleGenerateDesignSuccess initialState
        { stringified := "x", designData := none }).databaseSchema
      = initialState.databaseSchema
    ∧ (handleGenerateDesignSuccess initialState
        { stringified := "x", designData := none }).designResult = some "x" := by
  have h := (c3_failure_handling initialState
    { stringified := "x", designData := none }).2.2.2 rfl
  exact ⟨h.1, h.2.1⟩

/-- C4 counterexample: a login request started from the initial state,
followed by logout, followed by the late arrival of the successful
response, ends with an established session: the response is not
discarded, it resurrects the session. -/
theorem c4_counterexample :
    (handleLoginSuccess (handleLogout (handleLoginStart initialState)) "tok").isLoggedIn
      = true
    ∧ (handleLoginSuccess (handleLogout (handleLoginStart initialState)) "tok").token
      = "tok" :=
  ⟨rfl, rfl⟩

/-- C4 (amended): logout does not cancel in-flight requests and their
continuations still run on arrival: a late successful login response
after logout stores its token and transitions to LoggedIn, and a late
successful generation response after logout stores the design result
(and, for a well-formed body, the diagram description). -/
theorem c4_stale_responses_applied (s : AppState) (tok : String)
    (response : GenerateResponse) :
    (handleLoginSuccess (handleLogout s) tok).isLoggedIn = true
    ∧ (handleLoginSuccess (handleLogout s) tok).token = tok
    ∧ currentView (handleLoginSuccess (handleLogout s) tok) = View.design
    ∧ (handleGenerateDesignSuccess (handleLogout s) response).designResult
      = some response.stringified := by
  refine ⟨rfl, rfl, rfl, ?_⟩
  cases h : response.designData <;> simp [handleGenerateDesignSuccess, h]

/-- C5: the sourceConfig of every issued request carries path equal to
the connection string exactly when the source type is csv and url equal
to the connection string exactly when it is api; for every other source
type, prompt and database included, both are absent (none, dropped from
the serialized body), not empty strings. -/
theorem c5_sourceConfig_derivation (sourceType connectionString token : String) :
    (buildGenerateRequest sourceType connectionString token).sourceConfig.path
      = (if sourceType = "csv" then some connectionString else none)
    ∧ (buildGenerateRequest sourceType connectionString token).sourceConfig.url
      = (if sourceType = "api" then some connectionString else none)
    ∧ (sourceType ≠ "csv" → sourceType ≠ "api" →
        (buildGenerateRequest sourceType connectionString token).sourceConfig.path = none
        ∧ (buildGenerateRequest sourceType connectionString token).sourceConfig.url = none) := by
  refine ⟨rfl, rfl, ?_⟩
  intro h1 h2
  simp [buildGenerateRequest, h1, h2]

/-- C5 witness: the theorem applied at the prompt source type, where both
derived fields are absent. -/
theorem c5_witness :
    (buildGenerateRequest "prompt" "describe a pet store" "t").sourceConfig.path = none
    ∧ (buildGenerateRequest "prompt" "describe a pet store" "t").sourceConfig.url = none :=
  (c5_sourceConfig_derivation "prompt" "describe a pet store" "t").2.2
    (by decide) (by decide)

/-- C6: the transformer applied to the single-table design Users with
one non-nullable int column id and an empty relationships list returns
exactly the header line, the Users entity block with the single column
line giving the type then the name, no nullability marker and no
relationship line. -/
theorem c6_users_example :
    generateMermaidERD
      { designRecommendations :=
          { tables :=
              [{ name := "Users"
                 columns := [{ name := "id", type := "int", nullable := false }]
                 relationships := some [] }] } }
      = "erDiagram\n    Users \x7b\n        int id\n    \x7d\n" := rfl

/-- C7: the transformer output is the header, then the entity blocks in
the order of design.tables, then all relationship lines, in table order
and relationship order within each table; every relationship line has
the constant form target, the zero-or-more-to-exactly-one symbol, source
and the label relates regardless of the input; a table with an absent or
empty relationships sequence contributes no relationship line. -/
theorem c7_output_layout (d : DesignData) :
    generateMermaidERD d = "erDiagram\n"
      ++ concatMap entityBlock d.designRecommendations.tables
      ++ concatMap relationshipLines d.designRecommendations.tables
    ∧ (∀ t : Table, relationshipLines t
        = concatMap
            (fun r => "    " ++ r.targetTable ++ " \x7do--|| " ++ t.name ++ " : relates\n")
            (t.relationships.getD []))
    ∧ (∀ t : Table, t.relationships = none ∨ t.relationships = some [] →
        relationshipLines t = "") := by
  refine ⟨generateMermaidERD_eq d, fun t => rfl, ?_⟩
  intro t h
  rcases h with h | h <;> simp [relationshipLines, h, concatMap]

/-- C7 witness: the layout theorem applied at a concrete design, with
its relationship-free conjunct discharged at a table without
relationships. -/
theorem c7_witness :
    relationshipLines { name := "T", columns := [], relationships := none } = "" :=
  (c7_output_layout { designRecommendations := { tables := [] } }).2.2
    { name := "T", columns := [], relationships := none } (Or.inl rfl)

/-- C8: the transformer on a design with no tables returns exactly the
header line and nothing else, and on a design whose only table has zero
columns it still emits the (empty) entity block for that table. -/
theorem c8_zero_tables_zero_columns :
    (∀ d : DesignData, d.designRecommendations.tables = [] →
        generateMermaidERD d = "erDiagram\n")
    ∧ (∀ tableName : String,
        generateMermaidERD
          { designRecommendations :=
              { tables := [{ name := tableName, columns := [], relationships := none }] } }
          = "erDiagram\n" ++ "    " ++ tableName ++ " \x7b\n" ++ "    \x7d\n") := by
  constructor
  · intro d h
    rw [generateMermaidERD_eq, h]
    rfl
  · intro tableName
    rw [generateMermaidERD_eq]
    simp [concatMap, entityBlock, relationshipLines, String.append_assoc]
    rw [← String.append_assoc]
    rfl

/-- C8 witness: the theorem applied at the empty design and at a
concrete single zero-column table. -/
theorem c8_witness :
    generateMermaidERD { designRecommendations := { tables := [] } } = "erDiagram\n"
    ∧ generateMermaidERD
        { designRecommendations :=
            { tables := [{ name := "T", columns := [], relationships := none }] } }
      = "erDiagram\n" ++ "    " ++ "T" ++ " \x7b\n" ++ "    \x7d\n" :=
  ⟨c8_zero_tables_zero_columns.1 { designRecommendations := { tables := [] } } rfl,
   c8_zero_tables_zero_columns.2 "T"⟩

/-- C9: a failed login never establishes a session: the login flag is
false afterwards, the stored token is unchanged (no token is stored),
the failure message is surfaced, and the rendered view is still the
login view. -/
theorem c9_login_failure (s : AppState) :
    (handleLogin s none).isLoggedIn = false
    ∧ (handleLogin s none).token = s.token
    ∧ (handleLogin s none).error = some loginFailedMessage
    ∧ currentView (handleLogin s none) = View.login :=
  ⟨rfl, rfl, rfl, rfl⟩

/-- C10: the controller keeps a single shared error slot, and starting
either operation clears it: whatever error message a prior login or
generation attempt left behind, the start phase of each handler resets
it to none. -/
theorem c10_shared_error_slot (s : AppState) :
    (handleLoginStart s).error = none
    ∧ (handleGenerateDesignStart s).1.error = none :=
  ⟨rfl, rfl⟩
